import Mathlib

/-!
Shallow embedding of the Ventoy Flasher repository (backend.py and gui.py).

The backend class FlashUtility is embedded as a collection of pure functions.
Effects that the Python code performs against the outside world (subprocess
invocations, HTTP requests, filesystem writes, Qt log panes) are made explicit:

* every externally visible action is recorded as an `Ev` event in a trace,
  in the order the Python code performs it;
* the outcome of each external collaborator (the dd subprocess, the HTTP
  response, the tar or zip extractor, the shutil copy) is an explicit oracle
  argument, so one theorem quantifies over every possible behaviour of the
  collaborator;
* Python exceptions that escape a function are modelled with `Option PyExn`
  or `Except PyExn`; functions whose try blocks swallow every exception
  return plain values;
* the Python return value None is `PyRet.none` where the distinction between
  return values matters, and is dropped where the function always returns None.
-/

/-- Logging level constant from backend.py. -/
def LOG_DEBUG : Nat := 10

/-- Logging level constant from backend.py. -/
def LOG_INFO : Nat := 20

/-- Logging level constant from backend.py. -/
def LOG_WARNING : Nat := 30

/-- Logging level constant from backend.py. -/
def LOG_ERROR : Nat := 40

/-- Result of platform.system(), stored in FlashUtility.os_type. -/
inductive OSType
  | linux
  | windows
  | other
deriving DecidableEq, Repr

/-- Externally visible actions of the program, in program order.
`log` is a call of the log callback (gui log_message), `statusAppend` an
append to the GUI status pane, and the remaining constructors are the
subprocess or shutil invocations that touch a device or volume. -/
inductive Ev
  | log (level : Nat) (msg : String)
  | statusAppend (msg : String)
  | runDD (iso dev : String)
  | copyIso (iso dest : String)
  | parted (dev label : String)
deriving DecidableEq, Repr

/-- A Python exception escaping a function uncaught. -/
inductive PyExn
  | indexError
  | osError (m : String)
deriving DecidableEq, Repr

/-- Python return values of the backend primitives (always None in the source). -/
inductive PyRet
  | none
  | str (s : String)
  | bool (b : Bool)
deriving DecidableEq, Repr

/-- Outcome oracle for a subprocess.run call with check=True:
it either succeeds, raises CalledProcessError, or raises some other
exception. -/
inductive CmdResult
  | success
  | procError (m : String)
  | otherError (m : String)
deriving DecidableEq, Repr

/-- Outcome oracle for shutil.copy2. -/
inductive CopyRes
  | ok
  | err (m : String)
deriving DecidableEq, Repr

/-- A QMessageBox reply. -/
inductive Reply
  | yes
  | no
deriving DecidableEq, Repr

/-- Worker for pyTokens: walk the characters, building the current token in
reverse in acc, emitting it at each whitespace run or at the end. -/
def wsSplit : List Char → List Char → List String
  | [], acc => if acc.isEmpty then [] else [String.mk acc.reverse]
  | c :: rest, acc =>
    if c.isWhitespace then
      (if acc.isEmpty then [] else [String.mk acc.reverse]) ++ wsSplit rest []
    else wsSplit rest (c :: acc)

/-- Python s.strip().split(): split on whitespace runs, dropping empty
tokens. Yields [] exactly when s is empty or all whitespace. -/
def pyTokens (s : String) : List String :=
  wsSplit s.data []

/-- Python s.strip(): drop leading and trailing whitespace. -/
def pyStrip (s : String) : String :=
  String.mk (((s.data.dropWhile Char.isWhitespace).reverse.dropWhile Char.isWhitespace).reverse)

/-- Python s.lower(). -/
def pyLower (s : String) : String :=
  String.mk (s.data.map Char.toLower)

/-- Python substring containment: needle in hay. -/
def pyIn (needle hay : String) : Bool :=
  (List.range (hay.data.length + 1)).any
    (fun i => (hay.data.drop i).take needle.data.length == needle.data)

/-- Worker for basename: keep the characters seen since the last slash. -/
def afterLastSlash : List Char → List Char → List Char
  | [], acc => acc.reverse
  | c :: rest, acc =>
    if c = '/' then afterLastSlash rest [] else afterLastSlash rest (c :: acc)

/-- Python os.path.basename on POSIX paths: everything after the last
slash. -/
def basename (p : String) : String :=
  String.mk (afterLastSlash p.data [])

/-- Bool test that s starts with pre, computed on the underlying character
lists (Python s.startswith(pre)). -/
def strStarts (s pre : String) : Bool :=
  s.data.take pre.data.length == pre.data

/-- Bool test that s ends with suf, computed on the underlying character
lists (Python s.endswith(suf)). -/
def strEnds (s suf : String) : Bool :=
  s.data.drop (s.data.length - suf.data.length) == suf.data

/-- Python os.path.join on POSIX paths, for the two-argument uses in the
source. -/
def pyJoin (a b : String) : String :=
  if strStarts b "/" then b
  else if strEnds a "/" then a ++ b
  else a ++ "/" ++ b

/-- True when the trace contains an invocation of a destructive primitive
(the dd raw write, the copy onto the loader volume, or the parted relabel). -/
def hasDestructive (t : List Ev) : Bool :=
  t.any (fun e =>
    match e with
    | Ev.runDD _ _ => true
    | Ev.copyIso _ _ => true
    | Ev.parted _ _ => true
    | _ => false)

/-- True for log events at ERROR level. -/
def isErrorLog (e : Ev) : Bool :=
  match e with
  | Ev.log lvl _ => lvl == LOG_ERROR
  | _ => false

/-- True for log events at WARNING level. -/
def isWarningLog (e : Ev) : Bool :=
  match e with
  | Ev.log lvl _ => lvl == LOG_WARNING
  | _ => false

/-- One entry of the PREDEFINED_OS dictionary of backend.py: display name,
download url, expected sha256 placeholder. -/
structure OSEntry where
  name : String
  url : String
  hash : String
deriving DecidableEq, Repr

namespace Backend

/-- FlashUtility.run_dd_command of backend.py. On Linux it logs the dd
command line, runs it (the `Ev.runDD` event), and logs completion or the
caught error; on Windows it only logs a WARNING, on any other OS an ERROR.
Every Python path falls off the end of the function, returning None. -/
def run_dd_command (os : OSType) (ddRes : CmdResult) (iso_path usb_device : String) :
    PyRet × List Ev :=
  match os with
  | OSType.linux =>
    let cmd := "sudo dd if=" ++ iso_path ++ " of=" ++ usb_device
      ++ " bs=4M status=progress && sync"
    let tail :=
      match ddRes with
      | CmdResult.success => [Ev.log LOG_INFO "Flashing complete using dd."]
      | CmdResult.procError m => [Ev.log LOG_ERROR ("Error during flashing: " ++ m)]
      | CmdResult.otherError m => [Ev.log LOG_ERROR ("Unexpected error: " ++ m)]
    (PyRet.none,
      [Ev.log LOG_INFO ("Running dd command: " ++ cmd),
       Ev.runDD iso_path usb_device] ++ tail)
  | OSType.windows =>
    (PyRet.none,
      [Ev.log LOG_WARNING
        "dd command is not natively supported on Windows. Please install a dd equivalent."])
  | OSType.other =>
    (PyRet.none, [Ev.log LOG_ERROR "Unsupported OS for dd flashing."])

/-- Oracle for the outcome of requests.get in download_file: a connection
failure, a timeout, or a final response carrying an HTTP status code
(redirects already followed by requests). -/
inductive FetchRes
  | connError (m : String)
  | timeout (m : String)
  | status (code : Nat)
deriving DecidableEq, Repr

/-- Oracle for the local file write in download_file. -/
inductive WriteRes
  | ok
  | ioError (m : String)
deriving DecidableEq, Repr

/-- requests Response.raise_for_status: raises HTTPError exactly for 4xx
and 5xx status codes. -/
def raiseForStatus (code : Nat) : Bool :=
  decide (400 ≤ code ∧ code < 600)

/-- FlashUtility.download_file of backend.py. Returns the destination path
on success and None when a requests.RequestException was caught (connection
error, timeout, or raise_for_status on a 4xx/5xx response). An OSError from
opening or writing the local file is not caught by the except clause and
escapes. The middle component counts the requests.get calls made (the
source performs exactly one, never retrying). -/
def download_file (fetch : FetchRes) (w : WriteRes) (temp_dir url dest_filename : String) :
    Except PyExn (Option String) × Nat × List Ev :=
  let dest_path := pyJoin temp_dir dest_filename
  let head := [Ev.log LOG_INFO ("Downloading from " ++ url ++ " to " ++ dest_path)]
  match fetch with
  | FetchRes.connError m =>
    (Except.ok Option.none, 1, head ++ [Ev.log LOG_ERROR ("Error downloading file: " ++ m)])
  | FetchRes.timeout m =>
    (Except.ok Option.none, 1, head ++ [Ev.log LOG_ERROR ("Error downloading file: " ++ m)])
  | FetchRes.status code =>
    if raiseForStatus code then
      (Except.ok Option.none, 1,
        head ++ [Ev.log LOG_ERROR "Error downloading file: HTTPError"])
    else
      match w with
      | WriteRes.ok =>
        (Except.ok (some dest_path), 1,
          head ++ [Ev.log LOG_INFO ("Download complete: " ++ dest_path)])
      | WriteRes.ioError m =>
        (Except.error (PyExn.osError m), 1, head)

/-- Oracle for the behaviour of tarfile extractall or zipfile extractall on
the archive at hand: succeed, or raise (corrupt archive, truncated stream). -/
inductive ExtractBehavior
  | ok
  | raises (m : String)
deriving DecidableEq, Repr

/-- FlashUtility.extract_archive of backend.py. Dispatches on the file name
suffix; an unrecognized suffix logs a WARNING and returns False. The
surrounding try swallows every extractor exception, logs it at ERROR, and
returns False, so no exception escapes this function. -/
def extract_archive (tarB zipB : ExtractBehavior) (archive_path extract_to : String) :
    Except PyExn Bool × List Ev :=
  let head := [Ev.log LOG_INFO ("Extracting " ++ archive_path ++ " to " ++ extract_to)]
  if strEnds archive_path ".tar.gz" then
    match tarB with
    | ExtractBehavior.ok =>
      (Except.ok true, head ++ [Ev.log LOG_INFO "Extraction complete."])
    | ExtractBehavior.raises m =>
      (Except.ok false, head ++ [Ev.log LOG_ERROR ("Extraction error: " ++ m)])
  else if strEnds archive_path ".zip" then
    match zipB with
    | ExtractBehavior.ok =>
      (Except.ok true, head ++ [Ev.log LOG_INFO "Extraction complete."])
    | ExtractBehavior.raises m =>
      (Except.ok false, head ++ [Ev.log LOG_ERROR ("Extraction error: " ++ m)])
  else
    (Except.ok false, head ++ [Ev.log LOG_WARNING "Unsupported archive format."])

/-- FlashUtility.copy_iso_to_ventoy of backend.py: check the mount point,
then shutil.copy2 the ISO onto the Ventoy volume, logging the caught error
on failure. -/
def copy_iso_to_ventoy (mountExists : Bool) (copyRes : CopyRes)
    (iso_path ventoy_mount_point : String) : List Ev :=
  if !mountExists then
    [Ev.log LOG_ERROR "Ventoy mount point does not exist."]
  else
    let dest_path := pyJoin ventoy_mount_point (basename iso_path)
    [Ev.log LOG_INFO ("Copying ISO from " ++ iso_path ++ " to " ++ dest_path),
     Ev.copyIso iso_path dest_path] ++
    match copyRes with
    | CopyRes.ok => [Ev.log LOG_INFO "ISO file successfully copied to Ventoy drive."]
    | CopyRes.err m => [Ev.log LOG_ERROR ("Error copying ISO file: " ++ m)]

/-- FlashUtility.reformat_usb of backend.py. On Linux it dispatches on the
lowercased scheme, invokes parted mklabel (the `Ev.parted` event) and logs
the result; Windows logs a WARNING, any other OS an ERROR. Always returns
None. -/
def reformat_usb (os : OSType) (pRes : CmdResult) (usb_device scheme : String) :
    PyRet × List Ev :=
  match os with
  | OSType.linux =>
    let runWith := fun (label : String) =>
      let cmd := "sudo parted " ++ usb_device ++ " mklabel " ++ label
      let tail :=
        match pRes with
        | CmdResult.success => [Ev.log LOG_INFO "USB drive reformatted successfully."]
        | CmdResult.procError m => [Ev.log LOG_ERROR ("Error during reformatting: " ++ m)]
        | CmdResult.otherError m => [Ev.log LOG_ERROR ("Unexpected error: " ++ m)]
      (PyRet.none,
        [Ev.log LOG_INFO ("Reformatting USB drive with command: " ++ cmd),
         Ev.parted usb_device label] ++ tail)
    if pyLower scheme == "gpt" then runWith "gpt"
    else if pyLower scheme == "mbr" then runWith "msdos"
    else (PyRet.none, [Ev.log LOG_ERROR "Unknown partition scheme."])
  | OSType.windows =>
    (PyRet.none,
      [Ev.log LOG_WARNING "Reformatting USB drive is not implemented for Windows."])
  | OSType.other =>
    (PyRet.none, [Ev.log LOG_ERROR "Unsupported OS for reformatting."])

/-- Oracle for the lsblk subprocess in get_usb_details: its captured stdout,
or the exception it raised. -/
inductive LsblkRes
  | out (stdout : String)
  | exn (m : String)
deriving DecidableEq, Repr

/-- FlashUtility.get_usb_details of backend.py. On Linux it runs a global
lsblk listing and returns its stripped stdout; the usb_device argument is
never consulted on any path. -/
def get_usb_details (os : OSType) (lsblk : LsblkRes) (usb_device : String) : String :=
  match os with
  | OSType.linux =>
    match lsblk with
    | LsblkRes.out stdout => pyStrip stdout
    | LsblkRes.exn m => "Error retrieving USB details: " ++ m
  | OSType.windows => "USB details not implemented for Windows."
  | OSType.other => "Unsupported OS."

/-- The read loop of FlashUtility.compute_sha256: f.read(4096) until the
empty chunk, collecting the successive chunks. -/
def chunkBytes (l : List Nat) : List (List Nat) :=
  if h : l = [] then []
  else l.take 4096 :: chunkBytes (l.drop 4096)
termination_by l.length
decreasing_by
  simp only [List.length_drop]
  exact Nat.sub_lt (List.length_pos.mpr h) (by decide)

/-- hashlib sha256.update: the accumulator absorbs the chunk; the digest is
a function of all bytes absorbed so far. -/
def sha256_update (acc chunk : List Nat) : List Nat := acc ++ chunk

/-- FlashUtility.compute_sha256 of backend.py, parameterized by `hexOf`
(the hex digest of the sha256 accumulator contents) and by `fs` mapping a
path to the byte content of a readable file, or none when open or read
raises (that exception is caught; the function then returns None). -/
def compute_sha256 (hexOf : List Nat → String) (fs : String → Option (List Nat))
    (file_path : String) : Option String :=
  match fs file_path with
  | Option.none => Option.none
  | some content => some (hexOf ((chunkBytes content).foldl sha256_update []))

/-- True when path p is dir itself or lies in the subtree below dir, the
set of paths shutil.rmtree dir removes. -/
def underDir (dir p : String) : Bool :=
  p == dir || strStarts p (dir ++ "/")

/-- shutil.rmtree dir on a filesystem modelled as the list of existing
paths: dir and its whole subtree disappear. -/
def rmtree (fs : List String) (dir : String) : List String :=
  fs.filter (fun p => !underDir dir p)

/-- Oracle for the shutil.rmtree call in cleanup: the removal either
completes, or raises (permission error, file in use) after an unspecified
partial removal, leaving the filesystem in the state `fsLeft` the external
tool happened to produce. -/
inductive RmtreeRes
  | ok
  | raises (m : String) (fsLeft : List String)
deriving DecidableEq, Repr

/-- FlashUtility.cleanup of backend.py: when temp_dir still exists, try to
remove its whole tree and log at DEBUG; the try wraps the removal, so a
raising rmtree is caught and logged at ERROR, and the filesystem is left
as the failed removal left it. -/
def cleanup (rm : RmtreeRes) (temp_dir : String) (fs : List String) : List String × List Ev :=
  if fs.contains temp_dir then
    match rm with
    | RmtreeRes.ok =>
      (rmtree fs temp_dir, [Ev.log LOG_DEBUG "Cleaned up temporary files."])
    | RmtreeRes.raises m fsLeft =>
      (fsLeft, [Ev.log LOG_ERROR ("Error during cleanup: " ++ m)])
  else (fs, [])

end Backend

/-- The PREDEFINED_OS dictionary of backend.py, in insertion order
(Python dicts preserve it), with its placeholder hash values verbatim. -/
def PREDEFINED_OS : List OSEntry :=
  [⟨"ParrotOS Home Edition",
    "https://cdimage.parrot.sh/parrot/iso/ParrotSecurity-4.11_amd64.iso",
    "dummyhash_parrot"⟩,
   ⟨"NetBSD 9.3",
    "https://cdn.netbsd.org/pub/NetBSD/NetBSD-9.3/NetBSD-9.3-amd64.iso",
    "dummyhash_netbsd"⟩,
   ⟨"Ubuntu Server 22.04",
    "https://releases.ubuntu.com/22.04/ubuntu-22.04-live-server-amd64.iso",
    "dummyhash_ubuntu_server_22"⟩,
   ⟨"Debian 11 (Netinst)",
    "https://cdimage.debian.org/debian-cd/current/amd64/iso-cd/debian-11.7.0-amd64-netinst.iso",
    "dummyhash_debian"⟩,
   ⟨"Ubuntu 22.04 Desktop",
    "https://releases.ubuntu.com/22.04/ubuntu-22.04-desktop-amd64.iso",
    "dummyhash_ubuntu_desktop_22"⟩,
   ⟨"Ubuntu Jammy Jellyfish",
    "https://releases.ubuntu.com/22.04/ubuntu-22.04-desktop-amd64.iso",
    "dummyhash_ubuntu_jammy"⟩,
   ⟨"Fedora Workstation 37",
    "https://download.fedoraproject.org/pub/fedora/linux/releases/37/Workstation/x86_64/iso/Fedora-Workstation-Live-x86_64-37-1.6.iso",
    "dummyhash_fedora"⟩,
   ⟨"OpenSUSE Leap 15.4",
    "https://download.opensuse.org/distribution/leap/15.4/iso/openSUSE-Leap-15.4-DVD-x86_64.iso",
    "dummyhash_opensuse"⟩,
   ⟨"Arch Linux",
    "https://mirror.rackspace.com/archlinux/iso/latest/archlinux-x86_64.iso",
    "dummyhash_arch"⟩,
   ⟨"AlmaLinux 9",
    "https://repo.almalinux.org/almalinux/9/isos/x86_64/AlmaLinux-9.0-x86_64-dvd1.iso",
    "dummyhash_almalinux"⟩,
   ⟨"Pop!_OS 22.04",
    "https://pop-iso.sfo2.cdn.digitaloceanspaces.com/22.04/Pop_OS_22.04_amd64_intel_60.iso",
    "dummyhash_popos"⟩,
   ⟨"Puppy Linux 9.5",
    "https://distro.ibiblio.org/puppylinux/puppy-9.5/puppy-9.5_2019-08-14.iso",
    "dummyhash_puppy"⟩,
   ⟨"Linux Mint 21",
    "https://mirrors.edge.kernel.org/linuxmint/stable/21/linuxmint-21-cinnamon-64bit.iso",
    "dummyhash_mint"⟩,
   ⟨"Tiny Core Linux 12.1",
    "http://tinycorelinux.net/12.x/x86/release/TinyCorePure64-12.1.iso",
    "dummyhash_tinycore"⟩,
   ⟨"Kali Linux 2022.4",
    "https://cdimage.kali.org/kali-2022.4/kali-linux-2022.4-installer-amd64.iso",
    "dummyhash_kali"⟩,
   ⟨"Ubuntu 20.04 LTS Desktop",
    "https://releases.ubuntu.com/20.04/ubuntu-20.04.5-desktop-amd64.iso",
    "dummyhash_ubuntu20_desktop"⟩,
   ⟨"Ubuntu 20.04 LTS Server",
    "https://releases.ubuntu.com/20.04/ubuntu-20.04-live-server-amd64.iso",
    "dummyhash_ubuntu20_server"⟩,
   ⟨"Ubuntu Minimal 20.04",
    "https://cdimage.ubuntu.com/ubuntu-minimal/releases/20.04/release/ubuntu-minimal-20.04.5-amd64.iso",
    "dummyhash_ubuntu_minimal"⟩]

namespace Gui

/-- The widget state of VentoyFlasherGUI that flash_usb, reformat_usb and
validate_iso read: the selected ISO path (empty string when none selected,
as in the source), the two mode radio buttons, the editable USB device
combo text, and the Ventoy mount point line edit. -/
structure GuiState where
  selectedIsoPath : String
  ddMode : Bool
  ventoyMode : Bool
  usbComboText : String
  ventoyMountText : String
deriving DecidableEq, Repr

/-- VentoyFlasherGUI.validate_operation: the post-operation validation stub,
which only logs at DEBUG. -/
def validate_operation (target : String) : List Ev :=
  [Ev.log LOG_DEBUG
    ("Validating operation on target: " ++ target ++ " ... (not fully implemented)")]

/-- VentoyFlasherGUI.flash_usb of gui.py. In dd mode the device is re-read
as the first whitespace token of the combo text; on an empty or
whitespace-only combo text the subscript [0] raises IndexError before
anything is logged or invoked (the guard below it is unreachable). In
Ventoy mode the stripped mount point is checked and the ISO copied onto the
volume. Returns the emitted trace and the escaping exception, if any. -/
def flash_usb (os : OSType) (ddRes : CmdResult) (copyRes : CopyRes)
    (mountExists : Bool) (st : GuiState) : List Ev × Option PyExn :=
  if st.selectedIsoPath == "" then
    ([Ev.log LOG_WARNING "Please select an ISO file first."], Option.none)
  else if st.ddMode then
    match pyTokens st.usbComboText with
    | [] => ([], some PyExn.indexError)
    | usb_device :: _ =>
      if usb_device == "" then
        ([Ev.log LOG_WARNING "Please select the USB device from the dropdown."],
         Option.none)
      else
        ([Ev.log LOG_INFO "Starting dd flashing process..."]
           ++ (Backend.run_dd_command os ddRes st.selectedIsoPath usb_device).2
           ++ validate_operation usb_device,
         Option.none)
  else if st.ventoyMode then
    let ventoy_mount := pyStrip st.ventoyMountText
    if ventoy_mount == "" then
      ([Ev.log LOG_WARNING
         "Please specify the Ventoy USB mount point (e.g., E:\\ or /mnt/ventoy)."],
       Option.none)
    else
      ([Ev.log LOG_INFO "Copying ISO file to Ventoy drive..."]
         ++ Backend.copy_iso_to_ventoy mountExists copyRes st.selectedIsoPath ventoy_mount
         ++ validate_operation ventoy_mount,
       Option.none)
  else
    ([Ev.log LOG_ERROR "Unknown flashing mode selected."], Option.none)

/-- VentoyFlasherGUI.reformat_usb of gui.py: the same first-token re-read of
the combo text (IndexError on empty text), then a confirmation dialog; only
a Yes reply reaches the backend reformat primitive. -/
def reformat_usb (os : OSType) (reply : Reply) (pRes : CmdResult)
    (comboText scheme : String) : List Ev × Option PyExn :=
  match pyTokens comboText with
  | [] => ([], some PyExn.indexError)
  | usb_device :: _ =>
    if usb_device == "" then
      ([Ev.log LOG_WARNING "Please select a USB device to reformat."], Option.none)
    else
      match reply with
      | Reply.yes => ((Backend.reformat_usb os pRes usb_device scheme).2, Option.none)
      | Reply.no => ([Ev.log LOG_INFO "Reformatting canceled."], Option.none)

/-- VentoyFlasherGUI.validate_iso of gui.py: compute the sha256 of the
selected ISO (via the backend, abstracted as `sha`), look for the first
catalog entry whose lowercased name occurs in the lowercased ISO file name,
and compare hashes; a mismatch produces a WARNING log plus a status pane
append, a match an INFO log, no matching entry a WARNING. -/
def validate_iso (cat : List OSEntry) (sha : String → Option String)
    (selectedIsoPath : String) : List Ev :=
  if selectedIsoPath == "" then
    [Ev.log LOG_WARNING "Please select an ISO file first."]
  else
    match sha selectedIsoPath with
    | Option.none => [Ev.log LOG_ERROR "Failed to compute ISO hash."]
    | some computed_hash =>
      let iso_name := basename selectedIsoPath
      match cat.find? (fun e => pyIn (pyLower e.name) (pyLower iso_name)) with
      | some e =>
        if computed_hash == e.hash then
          [Ev.log LOG_INFO ("ISO validation passed for " ++ e.name ++ ".")]
        else
          [Ev.log LOG_WARNING
             ("WARNING: ISO hash for " ++ e.name ++ " does not match expected value!"),
           Ev.statusAppend
             ("WARNING: " ++ e.name ++ " ISO hash mismatch. Expected: "
               ++ e.hash ++ ", Got: " ++ computed_hash)]
      | Option.none =>
        [Ev.log LOG_WARNING "No expected hash available for this ISO. Please verify manually."]

/-- The condition under which validate_iso reports a hash mismatch,
together with the matched entry and the computed digest: an ISO is
selected, its hash was computed, the first name-matching catalog entry
exists, and the computed digest differs from its expected hash. -/
def mismatchInfo (cat : List OSEntry) (sha : String → Option String)
    (selectedIsoPath : String) : Option (OSEntry × String) :=
  if selectedIsoPath == "" then Option.none
  else
    match sha selectedIsoPath with
    | Option.none => Option.none
    | some computed_hash =>
      match cat.find? (fun e => pyIn (pyLower e.name) (pyLower (basename selectedIsoPath))) with
      | some e =>
        if computed_hash == e.hash then Option.none else some (e, computed_hash)
      | Option.none => Option.none

/-- Oracle for requests.head on one url in validate_os_links: the final
status code, or the exception the request raised. -/
inductive HeadRes
  | status (code : Nat)
  | exn (m : String)
deriving DecidableEq, Repr

/-- The retention test of validate_os_links: an entry survives exactly when
its HEAD request returned status 200. -/
def headOk : HeadRes → Bool
  | HeadRes.status code => code == 200
  | HeadRes.exn _ => false

/-- The to_remove list built by the first loop of validate_os_links: the
names of all entries whose HEAD request returned a status other than 200 or
raised. -/
def toRemove (check : String → HeadRes) (cat : List OSEntry) : List String :=
  (cat.filter (fun e => !headOk (check e.url))).map OSEntry.name

/-- Python dict.pop(name, None) on the catalog: drop the first entry bearing
the key (dict keys are unique, so the only one). -/
def popKey : List OSEntry → String → List OSEntry
  | [], _ => []
  | e :: rest, k => if e.name = k then rest else e :: popKey rest k

/-- VentoyFlasherGUI.validate_os_links of gui.py: one HEAD request per
catalog entry collects the unreachable names, then each collected name is
popped from the dictionary. -/
def validate_os_links (check : String → HeadRes) (cat : List OSEntry) : List OSEntry :=
  (toRemove check cat).foldl popKey cat

/-- VentoyFlasherGUI.closeEvent of gui.py: on a Yes reply run the backend
cleanup and accept the close event; on No leave everything untouched. The
Bool records whether the event was accepted. -/
def closeEvent (reply : Reply) (rm : Backend.RmtreeRes) (temp_dir : String)
    (fs : List String) : List String × Bool :=
  match reply with
  | Reply.yes => ((Backend.cleanup rm temp_dir fs).1, true)
  | Reply.no => (fs, false)

end Gui

/-- Success status class of HTTP, as the spec words use it: the 2xx
range. Stated from the spec side, to be compared with the code criteria
(raise_for_status flags 4xx and 5xx; validate_os_links keeps exactly
status 200). -/
def isSuccessStatus (code : Nat) : Bool :=
  decide (200 ≤ code ∧ code < 300)

/-- The fetch outcomes that download_file treats as network failure: a
caught requests.RequestException, that is a connection error, a timeout, or
a response raise_for_status flags (4xx/5xx). -/
def networkFailure : Backend.FetchRes → Bool
  | Backend.FetchRes.connError _ => true
  | Backend.FetchRes.timeout _ => true
  | Backend.FetchRes.status code => Backend.raiseForStatus code

/-- Concrete selected ISO path for the mismatch scenario: its basename
contains the catalog name "Arch Linux" (case-insensitively). -/
def exIso : String := "/tmp/Arch Linux.iso"

/-- Concrete sha256 oracle: every file hashes to a digest that differs from
every placeholder hash of the catalog. -/
def exSha : String → Option String := fun _ => some "0abc0abc"

/-- Concrete GUI state for the mismatch scenario: dd mode with a device
selected in the combo box. -/
def exState : Gui.GuiState := ⟨exIso, true, false, "/dev/sdb - SanDisk (32G)", ""⟩

/-- Concrete hex-digest function for the digest witness. -/
def hexLen : List Nat → String := fun l => toString l.length

/-- Concrete one-file filesystem for the digest witness. -/
def fsConst : String → Option (List Nat) := fun _ => some [7, 7, 7]

/-- Concrete two-entry catalog for the revalidation witness. -/
def exCat9 : List OSEntry :=
  [⟨"Debian 11 (Netinst)", "https://good.example/d.iso", "dummyhash_debian"⟩,
   ⟨"Arch Linux", "https://bad.example/a.iso", "dummyhash_arch"⟩]

/-- Concrete HEAD oracle for the revalidation witness: the first url is
reachable with 200, the second returns 404. -/
def exCheck9 : String → Gui.HeadRes := fun u =>
  if u == "https://good.example/d.iso" then Gui.HeadRes.status 200
  else Gui.HeadRes.status 404

/-- Every token produced by wsSplit is a nonempty string. -/
theorem wsSplit_mem_ne_empty :
    ∀ (cs : List Char) (acc : List Char) (t : String), t ∈ wsSplit cs acc → t ≠ "" := by
  intro cs
  induction cs with
  | nil =>
    intro acc t ht
    simp only [wsSplit] at ht
    by_cases hacc : acc.isEmpty
    · simp [hacc] at ht
    · simp [hacc] at ht
      subst ht
      simp only [ne_eq, String.ext_iff]
      simpa [List.reverse_eq_nil_iff] using (by simpa [List.isEmpty_iff] using hacc)
  | cons c rest ih =>
    intro acc t ht
    simp only [wsSplit] at ht
    by_cases hw : c.isWhitespace
    · simp only [hw, if_pos] at ht
      rcases List.mem_append.mp ht with h1 | h2
      · by_cases hacc : acc.isEmpty
        · simp [hacc] at h1
        · simp [hacc] at h1
          subst h1
          simp only [ne_eq, String.ext_iff]
          simpa [List.reverse_eq_nil_iff] using (by simpa [List.isEmpty_iff] using hacc)
      · exact ih [] t h2
    · simp only [hw] at ht
      exact ih (c :: acc) t (by simpa using ht)

/-- Every token of pyTokens is nonempty: Python str.split() never yields
empty tokens. -/
theorem pyTokens_mem_ne_empty {s t : String} (h : t ∈ pyTokens s) : (t == "") = false := by
  exact beq_eq_false_iff_ne.mpr (wsSplit_mem_ne_empty s.data [] t h)

/-- Claim C10: the device-detail query ignores its device argument: for any
two device strings queried against the same system state (same os_type and
same lsblk behaviour), get_usb_details returns the same text, so the result
carries no information about the selected device. -/
theorem C10_details_ignore_device (os : OSType) (lsblk : Backend.LsblkRes)
    (d₁ d₂ : String) :
    Backend.get_usb_details os lsblk d₁ = Backend.get_usb_details os lsblk d₂ := rfl

/-- Claim C5: for every archive path whose name ends in neither ".tar.gz"
nor ".zip", extract_archive returns False and raises no exception,
whatever the tar and zip extractors would have done on the bytes, and the
trace carries a WARNING-level log. -/
theorem C5_unrecognized_suffix_returns_false (tarB zipB : Backend.ExtractBehavior)
    (archive_path extract_to : String)
    (h1 : strEnds archive_path ".tar.gz" = false)
    (h2 : strEnds archive_path ".zip" = false) :
    Backend.extract_archive tarB zipB archive_path extract_to =
      (Except.ok false,
       [Ev.log LOG_INFO ("Extracting " ++ archive_path ++ " to " ++ extract_to),
        Ev.log LOG_WARNING "Unsupported archive format."])
    ∧ (Backend.extract_archive tarB zipB archive_path extract_to).2.any isWarningLog = true := by
  have h : Backend.extract_archive tarB zipB archive_path extract_to =
      (Except.ok false,
       [Ev.log LOG_INFO ("Extracting " ++ archive_path ++ " to " ++ extract_to),
        Ev.log LOG_WARNING "Unsupported archive format."]) := by
    simp [Backend.extract_archive, h1, h2]
  exact ⟨h, by simp [h, isWarningLog, LOG_WARNING, LOG_INFO]⟩

/-- Witness for C5 at the concrete unrecognized path "backup.rar". -/
theorem C5_witness :
    strEnds "backup.rar" ".tar.gz" = false ∧ strEnds "backup.rar" ".zip" = false ∧
    (Backend.extract_archive (Backend.ExtractBehavior.raises "boom")
        (Backend.ExtractBehavior.raises "boom") "backup.rar" "/tmp/out" =
      (Except.ok false,
       [Ev.log LOG_INFO ("Extracting " ++ "backup.rar" ++ " to " ++ "/tmp/out"),
        Ev.log LOG_WARNING "Unsupported archive format."])
    ∧ (Backend.extract_archive (Backend.ExtractBehavior.raises "boom")
        (Backend.ExtractBehavior.raises "boom") "backup.rar" "/tmp/out").2.any isWarningLog = true) :=
  ⟨by decide, by decide,
   C5_unrecognized_suffix_returns_false _ _ _ _ (by decide) (by decide)⟩

/-- Claim C6 counterexample: a recognized ".tar.gz" archive whose
extraction fails does not raise any exception: extract_archive catches the
extractor error and returns the ordinary value False (there is no
ArchiveError in the program), so the claim that failure is surfaced by
raising rather than by an ordinary result is false. -/
theorem C6_counterexample :
    Backend.extract_archive (Backend.ExtractBehavior.raises "ReadError: truncated stream")
        Backend.ExtractBehavior.ok "ventoy-1.0.90-linux.tar.gz" "/tmp/ventoy_x/ventoy_extracted" =
      (Except.ok false,
       [Ev.log LOG_INFO "Extracting ventoy-1.0.90-linux.tar.gz to /tmp/ventoy_x/ventoy_extracted",
        Ev.log LOG_ERROR "Extraction error: ReadError: truncated stream"]) := by rfl

/-- Claim C6 amended: for every archive with a recognized suffix whose
extraction fails, extract_archive logs the error at ERROR level and
returns the ordinary result False; no exception escapes. -/
theorem C6_amended (tarB zipB : Backend.ExtractBehavior) (p q to₁ to₂ m₁ m₂ : String)
    (htar : strEnds p ".tar.gz" = true)
    (hq1 : strEnds q ".tar.gz" = false) (hq2 : strEnds q ".zip" = true) :
    Backend.extract_archive (Backend.ExtractBehavior.raises m₁) zipB p to₁ =
      (Except.ok false,
       [Ev.log LOG_INFO ("Extracting " ++ p ++ " to " ++ to₁),
        Ev.log LOG_ERROR ("Extraction error: " ++ m₁)])
    ∧ Backend.extract_archive tarB (Backend.ExtractBehavior.raises m₂) q to₂ =
      (Except.ok false,
       [Ev.log LOG_INFO ("Extracting " ++ q ++ " to " ++ to₂),
        Ev.log LOG_ERROR ("Extraction error: " ++ m₂)])
    ∧ (Backend.extract_archive (Backend.ExtractBehavior.raises m₁) zipB p to₁).2.any
        isErrorLog = true := by
  have h : Backend.extract_archive (Backend.ExtractBehavior.raises m₁) zipB p to₁ =
      (Except.ok false,
       [Ev.log LOG_INFO ("Extracting " ++ p ++ " to " ++ to₁),
        Ev.log LOG_ERROR ("Extraction error: " ++ m₁)]) := by
    simp [Backend.extract_archive, htar]
  refine ⟨h, by simp [Backend.extract_archive, hq1, hq2], ?_⟩
  simp [h, isErrorLog, LOG_ERROR, LOG_INFO]

/-- Witness for C6 amended at concrete failing tar and zip archives. -/
theorem C6_witness :
    strEnds "v.tar.gz" ".tar.gz" = true ∧ strEnds "v.zip" ".tar.gz" = false ∧
    strEnds "v.zip" ".zip" = true ∧
    (Backend.extract_archive (Backend.ExtractBehavior.raises "bad tar") Backend.ExtractBehavior.ok
        "v.tar.gz" "/tmp/a" =
      (Except.ok false,
       [Ev.log LOG_INFO ("Extracting " ++ "v.tar.gz" ++ " to " ++ "/tmp/a"),
        Ev.log LOG_ERROR ("Extraction error: " ++ "bad tar")])
    ∧ Backend.extract_archive Backend.ExtractBehavior.ok (Backend.ExtractBehavior.raises "bad zip")
        "v.zip" "/tmp/b" =
      (Except.ok false,
       [Ev.log LOG_INFO ("Extracting " ++ "v.zip" ++ " to " ++ "/tmp/b"),
        Ev.log LOG_ERROR ("Extraction error: " ++ "bad zip")])
    ∧ (Backend.extract_archive (Backend.ExtractBehavior.raises "bad tar") Backend.ExtractBehavior.ok
        "v.tar.gz" "/tmp/a").2.any isErrorLog = true) :=
  ⟨by decide, by decide, by decide,
   C6_amended Backend.ExtractBehavior.ok Backend.ExtractBehavior.ok
     "v.tar.gz" "v.zip" "/tmp/a" "/tmp/b" "bad tar" "bad zip"
     (by decide) (by decide) (by decide)⟩

/-- Claim C8 counterexample: on Windows the dd write and the reformat
primitives return exactly the value they return on Linux success and on
Linux failure (Python None on every path), so there is no distinct
UnsupportedOnPlatform outcome a caller could distinguish from success or
from a generic error. -/
theorem C8_counterexample :
    (Backend.run_dd_command OSType.windows CmdResult.success "a.iso" "/dev/sdb").1 =
      (Backend.run_dd_command OSType.linux CmdResult.success "a.iso" "/dev/sdb").1
    ∧ (Backend.run_dd_command OSType.windows CmdResult.success "a.iso" "/dev/sdb").1 =
      (Backend.run_dd_command OSType.linux (CmdResult.procError "exit status 1")
        "a.iso" "/dev/sdb").1
    ∧ (Backend.reformat_usb OSType.windows CmdResult.success "/dev/sdb" "GPT").1 =
      (Backend.reformat_usb OSType.linux CmdResult.success "/dev/sdb" "GPT").1
    ∧ (Backend.reformat_usb OSType.windows CmdResult.success "/dev/sdb" "GPT").1 =
      (Backend.reformat_usb OSType.linux (CmdResult.procError "exit status 1")
        "/dev/sdb" "GPT").1 := by decide

/-- Claim C8 amended: on an unsupported host platform the destructive
primitives invoke nothing destructive and only emit a WARNING (Windows) or
ERROR (unknown OS) log naming the unsupported operation; their return
value is None, the same value every other path returns, so the
unsupported-platform outcome is distinguishable only through the log text,
not through the returned value. -/
theorem C8_amended (ddRes pRes : CmdResult) (iso dev scheme : String) :
    Backend.run_dd_command OSType.windows ddRes iso dev =
      (PyRet.none,
       [Ev.log LOG_WARNING
         "dd command is not natively supported on Windows. Please install a dd equivalent."])
    ∧ Backend.run_dd_command OSType.other ddRes iso dev =
      (PyRet.none, [Ev.log LOG_ERROR "Unsupported OS for dd flashing."])
    ∧ Backend.reformat_usb OSType.windows pRes dev scheme =
      (PyRet.none, [Ev.log LOG_WARNING "Reformatting USB drive is not implemented for Windows."])
    ∧ Backend.reformat_usb OSType.other pRes dev scheme =
      (PyRet.none, [Ev.log LOG_ERROR "Unsupported OS for reformatting."])
    ∧ hasDestructive (Backend.run_dd_command OSType.windows ddRes iso dev).2 = false
    ∧ hasDestructive (Backend.reformat_usb OSType.windows pRes dev scheme).2 = false
    ∧ (Backend.run_dd_command OSType.linux CmdResult.success iso dev).1 = PyRet.none :=
  ⟨rfl, rfl, rfl, rfl, rfl, rfl, rfl⟩

/-- Claim C2: starting a flash (or reformat) with an empty or
whitespace-only device selection fails immediately: in dd mode the
first-token subscript raises IndexError with an empty trace (nothing
logged, nothing invoked, no state touched); in Ventoy mode with a blank
mount point a WARNING is logged and the function returns; in both cases no
destructive primitive is ever invoked. -/
theorem C2_empty_device_fails_without_write (os : OSType) (ddRes : CmdResult)
    (copyRes : CopyRes) (mountExists : Bool) (reply : Reply) (pRes : CmdResult)
    (iso d m scheme : String)
    (hIso : (iso == "") = false) (hd : pyTokens d = []) (hm : pyStrip m = "") :
    (Gui.flash_usb os ddRes copyRes mountExists ⟨iso, true, false, d, m⟩ =
        ([], some PyExn.indexError)
      ∧ Gui.flash_usb os ddRes copyRes mountExists ⟨iso, false, true, d, m⟩ =
        ([Ev.log LOG_WARNING
           "Please specify the Ventoy USB mount point (e.g., E:\\ or /mnt/ventoy)."],
         Option.none)
      ∧ Gui.reformat_usb os reply pRes d scheme = ([], some PyExn.indexError))
    ∧ hasDestructive (Gui.flash_usb os ddRes copyRes mountExists ⟨iso, true, false, d, m⟩).1 = false
    ∧ hasDestructive (Gui.flash_usb os ddRes copyRes mountExists ⟨iso, false, true, d, m⟩).1 = false
    ∧ hasDestructive (Gui.reformat_usb os reply pRes d scheme).1 = false := by
  have h1 : Gui.flash_usb os ddRes copyRes mountExists ⟨iso, true, false, d, m⟩ =
      ([], some PyExn.indexError) := by
    simp [Gui.flash_usb, hIso, hd]
  have h2 : Gui.flash_usb os ddRes copyRes mountExists ⟨iso, false, true, d, m⟩ =
      ([Ev.log LOG_WARNING
         "Please specify the Ventoy USB mount point (e.g., E:\\ or /mnt/ventoy)."],
       Option.none) := by
    simp [Gui.flash_usb, hIso, hm]
  have h3 : Gui.reformat_usb os reply pRes d scheme = ([], some PyExn.indexError) := by
    simp [Gui.reformat_usb, hd]
  refine ⟨⟨h1, h2, h3⟩, ?_, ?_, ?_⟩ <;> simp [h1, h2, h3, hasDestructive]

/-- Witness for C2 at a whitespace-only device selection and blank mount
point. -/
theorem C2_witness :
    ("/tmp/a.iso" == "") = false ∧ pyTokens "   " = [] ∧ pyStrip " " = "" ∧
    ((Gui.flash_usb OSType.linux CmdResult.success CopyRes.ok true
        ⟨"/tmp/a.iso", true, false, "   ", " "⟩ = ([], some PyExn.indexError)
      ∧ Gui.flash_usb OSType.linux CmdResult.success CopyRes.ok true
        ⟨"/tmp/a.iso", false, true, "   ", " "⟩ =
        ([Ev.log LOG_WARNING
           "Please specify the Ventoy USB mount point (e.g., E:\\ or /mnt/ventoy)."],
         Option.none)
      ∧ Gui.reformat_usb OSType.linux Reply.yes CmdResult.success "   " "GPT" =
        ([], some PyExn.indexError))
    ∧ hasDestructive (Gui.flash_usb OSType.linux CmdResult.success CopyRes.ok true
        ⟨"/tmp/a.iso", true, false, "   ", " "⟩).1 = false
    ∧ hasDestructive (Gui.flash_usb OSType.linux CmdResult.success CopyRes.ok true
        ⟨"/tmp/a.iso", false, true, "   ", " "⟩).1 = false
    ∧ hasDestructive (Gui.reformat_usb OSType.linux Reply.yes CmdResult.success "   " "GPT").1
        = false) :=
  ⟨by decide, by decide, by decide,
   C2_empty_device_fails_without_write OSType.linux CmdResult.success CopyRes.ok true
     Reply.yes CmdResult.success "/tmp/a.iso" "   " " " "GPT"
     (by decide) (by decide) (by decide)⟩

/-- Claim C3 counterexample: cleanup wraps shutil.rmtree in a try/except,
so when the removal raises (here a permission error that removed nothing),
the exception is caught, an ERROR is logged, and the working area is still
on disk after engine shutdown; so unconditional removal is false as
stated. -/
theorem C3_counterexample :
    (Backend.cleanup
        (Backend.RmtreeRes.raises "PermissionError: Permission denied"
          ["/tmp/ventoy_abc", "/tmp/ventoy_abc/ubuntu.iso"])
        "/tmp/ventoy_abc"
        ["/tmp/ventoy_abc", "/tmp/ventoy_abc/ubuntu.iso"]).1.contains "/tmp/ventoy_abc" = true
    ∧ (Backend.cleanup
        (Backend.RmtreeRes.raises "PermissionError: Permission denied"
          ["/tmp/ventoy_abc", "/tmp/ventoy_abc/ubuntu.iso"])
        "/tmp/ventoy_abc"
        ["/tmp/ventoy_abc", "/tmp/ventoy_abc/ubuntu.iso"]).2 =
      [Ev.log LOG_ERROR ("Error during cleanup: " ++ "PermissionError: Permission denied")]
    ∧ (Gui.closeEvent Reply.yes
        (Backend.RmtreeRes.raises "PermissionError: Permission denied"
          ["/tmp/ventoy_abc", "/tmp/ventoy_abc/ubuntu.iso"])
        "/tmp/ventoy_abc"
        ["/tmp/ventoy_abc", "/tmp/ventoy_abc/ubuntu.iso"]).1.contains "/tmp/ventoy_abc"
      = true := by
  exact ⟨by decide, by rfl, by decide⟩

/-- Claim C3 amended: after cleanup (called directly on engine shutdown, or
from an accepted close event), when the rmtree removal completes the
working area temp_dir and every path below it are gone from the
filesystem; when rmtree raises, the exception is caught and logged at
ERROR and the filesystem is left as the failed removal left it, so the
working area can survive shutdown. -/
theorem C3_amended (fs fsLeft : List String) (temp_dir p m : String)
    (hEx : fs.contains temp_dir = true)
    (hp : Backend.underDir temp_dir p = true) :
    (p ∉ (Backend.cleanup Backend.RmtreeRes.ok temp_dir fs).1
      ∧ p ∉ (Gui.closeEvent Reply.yes Backend.RmtreeRes.ok temp_dir fs).1)
    ∧ ((Backend.cleanup (Backend.RmtreeRes.raises m fsLeft) temp_dir fs).1 = fsLeft
      ∧ (Backend.cleanup (Backend.RmtreeRes.raises m fsLeft) temp_dir fs).2 =
          [Ev.log LOG_ERROR ("Error during cleanup: " ++ m)]) := by
  have h : p ∉ Backend.rmtree fs temp_dir := by
    intro hmem
    have hkeep := (List.mem_filter.mp hmem).2
    simp [hp] at hkeep
  have hEx' : temp_dir ∈ fs := by simpa using hEx
  refine ⟨⟨?_, ?_⟩, ?_, ?_⟩
  · simpa [Backend.cleanup, hEx'] using h
  · simpa [Gui.closeEvent, Backend.cleanup, hEx'] using h
  · simp [Backend.cleanup, hEx']
  · simp [Backend.cleanup, hEx']

/-- Witness for C3 amended at a concrete working area holding one
downloaded ISO, with a succeeding and a failing removal. -/
theorem C3_witness :
    (["/tmp/ventoy_abc", "/tmp/ventoy_abc/ubuntu.iso", "/home/user/doc.txt"].contains
        "/tmp/ventoy_abc" = true)
    ∧ Backend.underDir "/tmp/ventoy_abc" "/tmp/ventoy_abc/ubuntu.iso" = true
    ∧ (("/tmp/ventoy_abc/ubuntu.iso" ∉
          (Backend.cleanup Backend.RmtreeRes.ok "/tmp/ventoy_abc"
            ["/tmp/ventoy_abc", "/tmp/ventoy_abc/ubuntu.iso", "/home/user/doc.txt"]).1
        ∧ "/tmp/ventoy_abc/ubuntu.iso" ∉
          (Gui.closeEvent Reply.yes Backend.RmtreeRes.ok "/tmp/ventoy_abc"
            ["/tmp/ventoy_abc", "/tmp/ventoy_abc/ubuntu.iso", "/home/user/doc.txt"]).1)
      ∧ ((Backend.cleanup (Backend.RmtreeRes.raises "boom" ["/tmp/ventoy_abc"])
            "/tmp/ventoy_abc"
            ["/tmp/ventoy_abc", "/tmp/ventoy_abc/ubuntu.iso", "/home/user/doc.txt"]).1 =
          ["/tmp/ventoy_abc"]
        ∧ (Backend.cleanup (Backend.RmtreeRes.raises "boom" ["/tmp/ventoy_abc"])
            "/tmp/ventoy_abc"
            ["/tmp/ventoy_abc", "/tmp/ventoy_abc/ubuntu.iso", "/home/user/doc.txt"]).2 =
          [Ev.log LOG_ERROR ("Error during cleanup: " ++ "boom")])) :=
  ⟨by decide, by decide,
   C3_amended
     ["/tmp/ventoy_abc", "/tmp/ventoy_abc/ubuntu.iso", "/home/user/doc.txt"]
     ["/tmp/ventoy_abc"] "/tmp/ventoy_abc" "/tmp/ventoy_abc/ubuntu.iso" "boom"
     (by decide) (by decide)⟩

/-- Folding the sha256 accumulator over the 4096-byte read chunks absorbs
exactly the file bytes, in order: streaming loses nothing. -/
theorem chunkBytes_foldl (l : List Nat) :
    ∀ acc, (Backend.chunkBytes l).foldl Backend.sha256_update acc = acc ++ l := by
  induction l using Backend.chunkBytes.induct with
  | case1 => intro acc; simp [Backend.chunkBytes]
  | case2 l h ih =>
    intro acc
    rw [Backend.chunkBytes, dif_neg h, List.foldl_cons, ih]
    simp only [Backend.sha256_update, List.append_assoc]
    rw [List.take_append_drop]

/-- Every read chunk is nonempty and holds at most 4096 bytes. -/
theorem chunkBytes_mem_size (l : List Nat) :
    ∀ b ∈ Backend.chunkBytes l, b.length ≤ 4096 ∧ b ≠ [] := by
  induction l using Backend.chunkBytes.induct with
  | case1 => simp [Backend.chunkBytes]
  | case2 l h ih =>
    intro b hb
    rw [Backend.chunkBytes, dif_neg h] at hb
    rcases List.mem_cons.mp hb with h1 | h2
    · subst h1
      refine ⟨by simp, ?_⟩
      intro hnil
      rcases List.take_eq_nil_iff.mp hnil with h' | h'
      · exact absurd h' (by decide)
      · exact h h'
    · exact ih b h2

/-- Every read chunk except the last holds exactly 4096 bytes: the file is
streamed in fixed-size blocks. -/
theorem chunkBytes_dropLast_size (l : List Nat) :
    ∀ b ∈ (Backend.chunkBytes l).dropLast, b.length = 4096 := by
  induction l using Backend.chunkBytes.induct with
  | case1 => simp [Backend.chunkBytes]
  | case2 l h ih =>
    intro b hb
    rw [Backend.chunkBytes, dif_neg h] at hb
    by_cases hrest : Backend.chunkBytes (l.drop 4096) = []
    · rw [hrest] at hb
      simp at hb
    · rw [List.dropLast_cons_of_ne_nil hrest] at hb
      rcases List.mem_cons.mp hb with h1 | h2
      · subst h1
        have hd : l.drop 4096 ≠ [] := by
          intro hh
          apply hrest
          rw [hh, Backend.chunkBytes]
          simp
        have hlen : 4096 < l.length := by
          by_contra hle
          push_neg at hle
          exact hd (List.drop_eq_nil_of_le hle)
        simp only [List.length_take]
        omega
      · exact ih b h2

/-- Claim C4: compute_sha256 streams the file in fixed-size 4096-byte
blocks through the hash accumulator (all blocks are full except the last,
none exceeds 4096 bytes, and the fold absorbs exactly the file content),
and it is deterministic and content-addressed: two paths with identical
byte content yield identical hex digest strings, the digest being a
function of the content alone. -/
theorem C4_digest_streaming_deterministic (hexOf : List Nat → String)
    (fs : String → Option (List Nat)) (p₁ p₂ : String)
    (hsame : fs p₁ = fs p₂) :
    Backend.compute_sha256 hexOf fs p₁ = Backend.compute_sha256 hexOf fs p₂
    ∧ (∀ content, Backend.compute_sha256 hexOf (fun _ => some content) p₁ =
        some (hexOf content))
    ∧ (∀ content, ∀ b ∈ (Backend.chunkBytes content).dropLast, b.length = 4096)
    ∧ (∀ content, ∀ b ∈ Backend.chunkBytes content, b.length ≤ 4096 ∧ b ≠ []) := by
  refine ⟨?_, ?_, ?_, ?_⟩
  · simp [Backend.compute_sha256, hsame]
  · intro content
    simp [Backend.compute_sha256, chunkBytes_foldl]
  · intro content
    exact chunkBytes_dropLast_size content
  · intro content
    exact chunkBytes_mem_size content

/-- Witness for C4 at two paths mapped to the same concrete content. -/
theorem C4_witness :
    fsConst "/tmp/a.iso" = fsConst "/tmp/b.iso"
    ∧ (Backend.compute_sha256 hexLen fsConst "/tmp/a.iso" =
         Backend.compute_sha256 hexLen fsConst "/tmp/b.iso"
      ∧ (∀ content, Backend.compute_sha256 hexLen (fun _ => some content) "/tmp/a.iso" =
          some (hexLen content))
      ∧ (∀ content, ∀ b ∈ (Backend.chunkBytes content).dropLast, b.length = 4096)
      ∧ (∀ content, ∀ b ∈ Backend.chunkBytes content, b.length ≤ 4096 ∧ b ≠ [])) :=
  ⟨rfl, C4_digest_streaming_deterministic hexLen fsConst "/tmp/a.iso" "/tmp/b.iso" rfl⟩

/-- Claim C7 counterexample: HTTP status 304 is not a success status, yet
download_file writes the body and returns a local path for it, because
raise_for_status only flags 4xx and 5xx; so "fails on every non-success
status" is false as stated. -/
theorem C7_counterexample :
    isSuccessStatus 304 = false
    ∧ (Backend.download_file (Backend.FetchRes.status 304) Backend.WriteRes.ok
        "/tmp/ventoy_x" "http://example.com/a.iso" "a.iso").1 =
      Except.ok (some "/tmp/ventoy_x/a.iso") := by
  exact ⟨by decide, by rfl⟩

/-- Claim C7 amended: for every fetch that encounters a connection error, a
timeout, or an HTTP error status (4xx/5xx, the statuses raise_for_status
flags), download_file returns None rather than a local path, logs the
failure at ERROR, and performs exactly one request (no retry within the
call). -/
theorem C7_amended (fetch : Backend.FetchRes) (w : Backend.WriteRes)
    (temp_dir url dest : String) (h : networkFailure fetch = true) :
    (Backend.download_file fetch w temp_dir url dest).1 = Except.ok Option.none
    ∧ (Backend.download_file fetch w temp_dir url dest).2.1 = 1
    ∧ (Backend.download_file fetch w temp_dir url dest).2.2.any isErrorLog = true := by
  cases fetch with
  | connError m =>
    refine ⟨rfl, rfl, ?_⟩
    simp [Backend.download_file, isErrorLog, LOG_ERROR, LOG_INFO]
  | timeout m =>
    refine ⟨rfl, rfl, ?_⟩
    simp [Backend.download_file, isErrorLog, LOG_ERROR, LOG_INFO]
  | status code =>
    have hc : Backend.raiseForStatus code = true := by
      simpa [networkFailure] using h
    refine ⟨?_, ?_, ?_⟩ <;>
      simp [Backend.download_file, hc, isErrorLog, LOG_ERROR, LOG_INFO]

/-- Witness for C7 amended at a concrete timeout. -/
theorem C7_witness :
    networkFailure (Backend.FetchRes.timeout "connection timed out") = true
    ∧ ((Backend.download_file (Backend.FetchRes.timeout "connection timed out")
          Backend.WriteRes.ok "/tmp/ventoy_x" "http://example.com/a.iso" "a.iso").1 =
        Except.ok Option.none
      ∧ (Backend.download_file (Backend.FetchRes.timeout "connection timed out")
          Backend.WriteRes.ok "/tmp/ventoy_x" "http://example.com/a.iso" "a.iso").2.1 = 1
      ∧ (Backend.download_file (Backend.FetchRes.timeout "connection timed out")
          Backend.WriteRes.ok "/tmp/ventoy_x" "http://example.com/a.iso" "a.iso").2.2.any
          isErrorLog = true) :=
  ⟨by decide,
   C7_amended (Backend.FetchRes.timeout "connection timed out") Backend.WriteRes.ok
     "/tmp/ventoy_x" "http://example.com/a.iso" "a.iso" (by decide)⟩

/-- Unfolding characterization of a reported hash mismatch: the branch
conditions validate_iso takes to reach its mismatch arm. -/
theorem mismatchInfo_spec {cat : List OSEntry} {sha : String → Option String}
    {iso : String} {e : OSEntry} {c : String}
    (h : Gui.mismatchInfo cat sha iso = some (e, c)) :
    (iso == "") = false ∧ sha iso = some c
    ∧ cat.find? (fun x => pyIn (pyLower x.name) (pyLower (basename iso))) = some e
    ∧ (c == e.hash) = false := by
  unfold Gui.mismatchInfo at h
  by_cases h0 : (iso == "") = true
  · rw [if_pos h0] at h
    cases h
  · rw [if_neg h0] at h
    cases hsha : sha iso with
    | none =>
      rw [hsha] at h
      simp at h
    | some computed =>
      rw [hsha] at h
      simp only [] at h
      cases hfind : cat.find? (fun x => pyIn (pyLower x.name) (pyLower (basename iso))) with
      | none =>
        rw [hfind] at h
        simp at h
      | some x =>
        rw [hfind] at h
        simp only [] at h
        by_cases hch : (computed == x.hash) = true
        · simp only [if_pos hch] at h
          cases h
        · simp only [if_neg hch] at h
          have hpair := Option.some.inj h
          have hx : x = e := congrArg Prod.fst hpair
          have hc : computed = c := congrArg Prod.snd hpair
          subst hx
          subst hc
          exact ⟨Bool.eq_false_iff.mpr h0, rfl, rfl,
            Bool.eq_false_iff.mpr hch⟩

/-- Claim C1 counterexample: with the shipped catalog, the ISO named after
the Arch Linux entry, and a computed digest differing from the expected
placeholder hash, verification reports a mismatch, yet the flash operation
started afterwards in dd mode still invokes the raw dd write on the
device; there is no failed state and no gate between the two. -/
theorem C1_counterexample :
    (Gui.mismatchInfo PREDEFINED_OS exSha exIso).isSome = true
    ∧ Ev.runDD exIso "/dev/sdb" ∈
        (Gui.flash_usb OSType.linux CmdResult.success CopyRes.ok true exState).1
    ∧ hasDestructive
        (Gui.flash_usb OSType.linux CmdResult.success CopyRes.ok true exState).1 = true := by
  refine ⟨by decide, by decide, by decide⟩

/-- Claim C1 amended: a hash mismatch in validate_iso produces exactly one
WARNING log and one status-pane warning, nothing destructive and no
failure state; and flash_usb does not consult the verification result at
all, so a dd-mode flash started on the same state still invokes the raw dd
write and returns normally. -/
theorem C1_amended (cat : List OSEntry) (sha : String → Option String)
    (st : Gui.GuiState) (e : OSEntry) (c : String) (ddRes : CmdResult)
    (copyRes : CopyRes) (mountExists : Bool) (dev : String) (rest : List String)
    (hmis : Gui.mismatchInfo cat sha st.selectedIsoPath = some (e, c))
    (hdd : st.ddMode = true)
    (htok : pyTokens st.usbComboText = dev :: rest) :
    Gui.validate_iso cat sha st.selectedIsoPath =
      [Ev.log LOG_WARNING
         ("WARNING: ISO hash for " ++ e.name ++ " does not match expected value!"),
       Ev.statusAppend
         ("WARNING: " ++ e.name ++ " ISO hash mismatch. Expected: "
           ++ e.hash ++ ", Got: " ++ c)]
    ∧ hasDestructive (Gui.validate_iso cat sha st.selectedIsoPath) = false
    ∧ Ev.runDD st.selectedIsoPath dev ∈
        (Gui.flash_usb OSType.linux ddRes copyRes mountExists st).1
    ∧ (Gui.flash_usb OSType.linux ddRes copyRes mountExists st).2 = Option.none := by
  obtain ⟨h0, hsha, hfind, hch⟩ := mismatchInfo_spec hmis
  have hval : Gui.validate_iso cat sha st.selectedIsoPath =
      [Ev.log LOG_WARNING
         ("WARNING: ISO hash for " ++ e.name ++ " does not match expected value!"),
       Ev.statusAppend
         ("WARNING: " ++ e.name ++ " ISO hash mismatch. Expected: "
           ++ e.hash ++ ", Got: " ++ c)] := by
    simp [Gui.validate_iso, h0, hsha, hfind, hch]
  have hdev : (dev == "") = false :=
    pyTokens_mem_ne_empty (s := st.usbComboText) (by rw [htok]; exact List.mem_cons_self _ _)
  have hflash : Gui.flash_usb OSType.linux ddRes copyRes mountExists st =
      ([Ev.log LOG_INFO "Starting dd flashing process..."]
         ++ (Backend.run_dd_command OSType.linux ddRes st.selectedIsoPath dev).2
         ++ Gui.validate_operation dev,
       Option.none) := by
    simp [Gui.flash_usb, h0, hdd, htok, hdev]
  refine ⟨hval, by simp [hval, hasDestructive], ?_, by simp [hflash]⟩
  rw [hflash]
  cases ddRes <;> simp [Backend.run_dd_command]

/-- Witness for C1 amended at the concrete mismatch scenario. -/
theorem C1_witness :
    Gui.mismatchInfo PREDEFINED_OS exSha exState.selectedIsoPath =
      some (⟨"Arch Linux",
             "https://mirror.rackspace.com/archlinux/iso/latest/archlinux-x86_64.iso",
             "dummyhash_arch"⟩, "0abc0abc")
    ∧ exState.ddMode = true
    ∧ pyTokens exState.usbComboText = ["/dev/sdb", "-", "SanDisk", "(32G)"]
    ∧ (Gui.validate_iso PREDEFINED_OS exSha exState.selectedIsoPath =
        [Ev.log LOG_WARNING
           ("WARNING: ISO hash for " ++ "Arch Linux" ++ " does not match expected value!"),
         Ev.statusAppend
           ("WARNING: " ++ "Arch Linux" ++ " ISO hash mismatch. Expected: "
             ++ "dummyhash_arch" ++ ", Got: " ++ "0abc0abc")]
      ∧ hasDestructive (Gui.validate_iso PREDEFINED_OS exSha exState.selectedIsoPath) = false
      ∧ Ev.runDD exState.selectedIsoPath "/dev/sdb" ∈
          (Gui.flash_usb OSType.linux CmdResult.success CopyRes.ok true exState).1
      ∧ (Gui.flash_usb OSType.linux CmdResult.success CopyRes.ok true exState).2 =
          Option.none) :=
  ⟨by decide, rfl, by decide,
   C1_amended PREDEFINED_OS exSha exState
     ⟨"Arch Linux",
      "https://mirror.rackspace.com/archlinux/iso/latest/archlinux-x86_64.iso",
      "dummyhash_arch"⟩ "0abc0abc" CmdResult.success CopyRes.ok true
     "/dev/sdb" ["-", "SanDisk", "(32G)"] (by decide) rfl (by decide)⟩

/-- Popping one key from a catalog with pairwise distinct names drops
exactly the entries bearing that name. -/
theorem popKey_eq_filter {cat : List OSEntry} {k : String}
    (hnd : (cat.map OSEntry.name).Nodup) :
    Gui.popKey cat k = cat.filter (fun e => !(e.name == k)) := by
  induction cat with
  | nil => rfl
  | cons e rest ih =>
    rw [List.map_cons, List.nodup_cons] at hnd
    obtain ⟨hnot, hrest⟩ := hnd
    by_cases hk : e.name = k
    · subst hk
      simp only [Gui.popKey, if_pos rfl, List.filter_cons, beq_self_eq_true,
        Bool.not_true, Bool.false_eq_true, if_neg, ite_false]
      refine (List.filter_eq_self.mpr ?_).symm
      intro x hx
      have : x.name ≠ e.name := by
        intro hxe
        exact hnot (hxe ▸ List.mem_map_of_mem OSEntry.name hx)
      simpa using this
    · simp only [Gui.popKey, if_neg hk, List.filter_cons]
      have : (!(e.name == k)) = true := by simpa using hk
      rw [this, if_pos rfl, ih hrest]

/-- Folding popKey over a list of keys removes exactly the entries whose
name occurs among the keys, provided the catalog names are pairwise
distinct (dictionary keys). -/
theorem foldl_popKey_eq_filter (ks : List String) :
    ∀ (cat : List OSEntry), (cat.map OSEntry.name).Nodup →
      ks.foldl Gui.popKey cat = cat.filter (fun e => !(ks.contains e.name)) := by
  induction ks with
  | nil =>
    intro cat hnd
    simp
  | cons k ks ih =>
    intro cat hnd
    rw [List.foldl_cons, popKey_eq_filter hnd]
    have hnd2 : ((cat.filter (fun e => !(e.name == k))).map OSEntry.name).Nodup :=
      List.Nodup.sublist (List.Sublist.map OSEntry.name (List.filter_sublist cat)) hnd
    rw [ih _ hnd2, List.filter_filter]
    apply List.filter_congr
    intro x hx
    simp only [List.contains_cons, Bool.not_or]
    rw [Bool.and_comm]

/-- Claim C9 amended: for every catalog with pairwise distinct names,
validate_os_links keeps, unchanged and in order, exactly the entries whose
HEAD check returned status 200, and removes every entry whose check
returned any other status or raised. -/
theorem C9_amended (check : String → Gui.HeadRes) (cat : List OSEntry)
    (hnd : (cat.map OSEntry.name).Nodup) :
    Gui.validate_os_links check cat = cat.filter (fun e => Gui.headOk (check e.url)) := by
  unfold Gui.validate_os_links
  rw [foldl_popKey_eq_filter _ cat hnd]
  apply List.filter_congr
  intro e he
  by_cases hmem : e.name ∈ Gui.toRemove check cat
  · have hbad : Gui.headOk (check e.url) = false := by
      have hx : ∃ x, x ∈ cat.filter (fun x => !Gui.headOk (check x.url)) ∧ x.name = e.name := by
        simpa [Gui.toRemove, List.mem_map] using hmem
      obtain ⟨x, hxf, hxn⟩ := hx
      obtain ⟨hxcat, hxbad⟩ := List.mem_filter.mp hxf
      have hxe : x = e := List.inj_on_of_nodup_map hnd hxcat he hxn
      subst hxe
      simpa using hxbad
    have hcont : (Gui.toRemove check cat).contains e.name = true := by
      simpa [List.contains] using hmem
    rw [hcont, hbad]
    rfl
  · have hok : Gui.headOk (check e.url) = true := by
      by_contra hne
      apply hmem
      have hbad : (!Gui.headOk (check e.url)) = true := by
        simpa using hne
      exact List.mem_map_of_mem OSEntry.name (List.mem_filter.mpr ⟨he, hbad⟩)
    have hcont : (Gui.toRemove check cat).contains e.name = false := by
      simpa [List.contains] using hmem
    rw [hcont, hok]
    rfl

/-- Claim C9 counterexample: HTTP status 204 is a success status, so this
HEAD check has succeeded and found the origin reachable, yet
validate_os_links removes the entry, because the code keeps only exact
status 200; so "entries whose URL check succeeded remain in the catalog"
is false as stated. -/
theorem C9_counterexample :
    isSuccessStatus 204 = true
    ∧ Gui.validate_os_links (fun _ => Gui.HeadRes.status 204)
        [⟨"Arch Linux",
          "https://mirror.rackspace.com/archlinux/iso/latest/archlinux-x86_64.iso",
          "dummyhash_arch"⟩] = [] := by
  exact ⟨by decide, by decide⟩

/-- Witness for C9 amended at a concrete two-entry catalog: the 200 entry
survives unchanged, the 404 entry is removed. -/
theorem C9_witness :
    (exCat9.map OSEntry.name).Nodup
    ∧ Gui.validate_os_links exCheck9 exCat9 =
        exCat9.filter (fun e => Gui.headOk (exCheck9 e.url))
    ∧ Gui.validate_os_links exCheck9 exCat9 =
        [⟨"Debian 11 (Netinst)", "https://good.example/d.iso", "dummyhash_debian"⟩] :=
  ⟨by decide, C9_amended exCheck9 exCat9 (by decide),
   (C9_amended exCheck9 exCat9 (by decide)).trans (by decide)⟩
